import Mathlib

/-!
Shallow embedding of the dagster run-resumption and result-reconstruction
subsystem:

* `results.py` (`PipelineExecutionResult`, `SolidExecutionResult`): event
  aggregation by step key and by node handle, per-solid success / skipped /
  failure-data / output-value queries, and lazy value reconstruction through
  the intermediates manager.
* `run_lifecycle.py` (`create_valid_pipeline_run`): config validation, step
  subset resolution, plan building, then persistence of a new run record.

Machine integers play no role; event payloads are modelled as tagged values.
Parts of the repository that the excerpt imports but does not contain
(`SolidHandle.is_or_descends_from`, `merge_dicts`, `DagsterInstance.create_run`,
`StepKind`, `DagsterEvent.is_step_event`, `is_successful_output`) are modelled
from the specification's words; each such definition says so in its doc
comment.
-/

set_option autoImplicit false

/-- Event kinds of `DagsterEventType`: the seven step-level kinds named by the
spec plus the pipeline lifecycle kinds that the event list may also carry. -/
inductive DagsterEventType where
  | stepOutput
  | stepInput
  | stepSuccess
  | stepFailure
  | stepSkipped
  | stepMaterialization
  | stepExpectationResult
  | pipelineStart
  | pipelineSuccess
  | pipelineFailure
  deriving DecidableEq, Repr

/-- Modelled from the spec: the step-kind tag that buckets step events, with
compute-phase events distinguished from all other step kinds ("compute" vs.
other step kinds); `StepKind` itself is imported from outside the excerpt. -/
inductive StepKind where
  | compute
  | other
  deriving DecidableEq, Repr

/-- Modelled from the spec: run status enum with lifecycle
NOT_STARTED, STARTED, SUCCESS, FAILURE, CANCELED. -/
inductive PipelineRunStatus where
  | notStarted
  | started
  | success
  | failure
  | canceled
  deriving DecidableEq, Repr

/-- A (step key, output name) pair locating a checkpointed output value in the
intermediate store. -/
structure StepOutputHandle where
  step_key : String
  output_name : String
  deriving DecidableEq, Repr

/-- Payload of a STEP_OUTPUT event: the output name and the store handle. -/
structure StepOutputData where
  output_name : String
  step_output_handle : StepOutputHandle
  deriving DecidableEq, Repr

/-- Payload of a STEP_FAILURE event: the failure diagnostics. -/
structure StepFailureData where
  error : String
  deriving DecidableEq, Repr

/-- A `DagsterEvent`: kind tag, step key, hierarchical solid handle (a path of
segment identifiers), step-kind bucket tag, and the kind-specific payloads
consulted by the result queries. -/
structure DagsterEvent where
  event_type : DagsterEventType
  step_key : String
  solid_handle : List String
  step_kind : StepKind
  step_output_data : Option StepOutputData
  step_failure_data : Option StepFailureData
  deriving DecidableEq, Repr

/-- Modelled from the spec: `DagsterEvent.is_step_event` is true exactly for
the seven step-level event kinds (pipeline lifecycle events are excluded). -/
def DagsterEvent.is_step_event (e : DagsterEvent) : Bool :=
  match e.event_type with
  | DagsterEventType.stepOutput => true
  | DagsterEventType.stepInput => true
  | DagsterEventType.stepSuccess => true
  | DagsterEventType.stepFailure => true
  | DagsterEventType.stepSkipped => true
  | DagsterEventType.stepMaterialization => true
  | DagsterEventType.stepExpectationResult => true
  | _ => false

/-- Modelled from the spec: `DagsterEvent.is_successful_output` holds of the
STEP_OUTPUT events, which `output_value` locates for a given output name. -/
def DagsterEvent.is_successful_output (e : DagsterEvent) : Bool :=
  e.event_type == DagsterEventType.stepOutput

/-- Splitting a handle string on the dot separator, one segment at a time
(`SolidHandle.from_string`); `cur` holds the reversed characters of the
segment being accumulated. -/
def splitSegs : List Char → List Char → List String
  | [], cur => [String.mk cur.reverse]
  | c :: cs, cur =>
    if c = '.' then String.mk cur.reverse :: splitSegs cs []
    else splitSegs cs (c :: cur)

/-- Modelled from the spec: parse dot-delimited handle text into its path of
segment identifiers (`SolidHandle.from_string`). -/
def parseHandle (s : String) : List String :=
  splitSegs s.data []

/-- Modelled from the spec: `is_or_descends_from` — true iff the second path
equals the first or is a proper prefix of it, compared segment by segment
(never by string prefix). -/
def handleDescends : List String → List String → Bool
  | _, [] => true
  | [], _ :: _ => false
  | a :: as, b :: bs => a == b && handleDescends as bs

/-- Values living in the intermediate store and flowing out of `output_value`;
`objectStoreOperation` is the pointer-to-object wrapper a store read may
return, `vnone` is Python's `None`. -/
inductive PyVal where
  | vint (n : Int)
  | vstr (s : String)
  | objectStoreOperation (obj : PyVal)
  | vnone
  deriving DecidableEq, Repr

/-- A solid paired with the output names its definition declares
(`solid.definition.has_output` consults these). -/
structure Solid where
  name : String
  output_names : List String
  deriving DecidableEq, Repr

/-- The pipeline definition as the result queries see it: a finite map from
handle paths to solids (`pipeline.get_solid`). -/
structure Pipeline where
  solids : List (List String × Solid)

/-- Modelled from the spec: `pipeline.get_solid` looks the handle path up in
the pipeline definition, `none` when the handle addresses no node. -/
def getSolid (p : Pipeline) (segs : List String) : Option Solid :=
  (p.solids.find? (fun q => q.1 == segs)).map (fun q => q.2)

/-- Python `results.py` line 36: the default output name. -/
def DEFAULT_OUTPUT : String := "result"

/-- The errors the embedded operations can signal; one constructor per raise
site of the excerpt (the Python sites all raise
`DagsterInvariantViolationError` or `CheckError`, with distinct messages). -/
inductive DagsterError where
  | solidNotFound
  | outputNotDefined
  | didNotFindResult
  | cannotCallFailureEventIfSuccessful
  | checkInvariantFailed
  | invalidConfig
  | invalidSubset
  | planBuildError
  deriving DecidableEq, Repr

/-- `SolidExecutionResult.__init__`: a solid plus its step events bucketed by
step kind (built by `result_for_handle`). -/
structure SolidExecutionResult where
  solid : Solid
  step_events_by_kind : StepKind → List DagsterEvent

/-- `compute_step_events`: `step_events_by_kind.get(StepKind.COMPUTE, [])`. -/
def compute_step_events (r : SolidExecutionResult) : List DagsterEvent :=
  r.step_events_by_kind StepKind.compute

/-- `_compute_steps_of_type`: the compute step events of one event type, in
event order. -/
def computeStepsOfType (r : SolidExecutionResult) (dagster_event_type : DagsterEventType) :
    List DagsterEvent :=
  (compute_step_events r).filter (fun se => se.event_type == dagster_event_type)

/-- The loop body of `SolidExecutionResult.success`: return False at the first
STEP_FAILURE, otherwise remember whether a STEP_SUCCESS was seen. -/
def successLoop : List DagsterEvent → Bool → Bool
  | [], any_success => any_success
  | e :: es, any_success =>
    if e.event_type == DagsterEventType.stepFailure then false
    else successLoop es (any_success || (e.event_type == DagsterEventType.stepSuccess))

/-- `SolidExecutionResult.success`. -/
def success (r : SolidExecutionResult) : Bool :=
  successLoop (compute_step_events r) false

/-- `SolidExecutionResult.skipped`: all compute step events are STEP_SKIPPED. -/
def skipped (r : SolidExecutionResult) : Bool :=
  (compute_step_events r).all (fun e => e.event_type == DagsterEventType.stepSkipped)

/-- `SolidExecutionResult.failure_data`: the payload of the first compute
STEP_FAILURE event, `none` when the loop falls through; never an error. -/
def failure_data (r : SolidExecutionResult) : Option StepFailureData :=
  match (compute_step_events r).find? (fun e => e.event_type == DagsterEventType.stepFailure) with
  | some e => e.step_failure_data
  | none => none

/-- `SolidExecutionResult.compute_step_failure_event`: raises when called on a
successful result; otherwise demands exactly one compute STEP_FAILURE event
(`check.invariant(len(step_failure_events) == 1)`) and returns it. -/
def compute_step_failure_event (r : SolidExecutionResult) : Except DagsterError DagsterEvent :=
  if success r then
    Except.error DagsterError.cannotCallFailureEventIfSuccessful
  else
    match computeStepsOfType r DagsterEventType.stepFailure with
    | [e] => Except.ok e
    | _ => Except.error DagsterError.checkInvariantFailed

/-- The behaviour claim C2 ascribes to `failure_data`, stated from the spec's
words for comparison with the source's `failure_data`: on a non-successful
result it must fail unless exactly one compute STEP_FAILURE exists, and then
return that event's payload. -/
def failure_data_claimed (r : SolidExecutionResult) :
    Except DagsterError (Option StepFailureData) :=
  if success r then Except.ok (failure_data r)
  else
    match computeStepsOfType r DagsterEventType.stepFailure with
    | [e] => Except.ok e.step_failure_data
    | _ => Except.error DagsterError.checkInvariantFailed

/-- `_get_value`: read the intermediate store at the event's output handle and
unwrap an `ObjectStoreOperation` wrapper to its `obj` payload (a single match,
never recursive); the store function stands for
`context.intermediates_manager.get_intermediate` with the runtime type
argument elided. -/
def getValue (store : StepOutputHandle → PyVal) (step_output_data : StepOutputData) : PyVal :=
  match store step_output_data.step_output_handle with
  | PyVal.objectStoreOperation obj => obj
  | v => v

/-- The loop inside `output_value`: the first compute step event that is a
successful output for the requested name, if any. -/
def findComputeOutputEvent (output_name : String) :
    List DagsterEvent → Option StepOutputData
  | [] => none
  | e :: es =>
    if e.is_successful_output then
      match e.step_output_data with
      | some d =>
        if d.output_name == output_name then some d
        else findComputeOutputEvent output_name es
      | none => findComputeOutputEvent output_name es
    else findComputeOutputEvent output_name es

/-- `SolidExecutionResult.output_value`: raises when the solid's definition
has no output of that name; when successful, reconstructs the value of the
first matching successful-output event through the store; when not
successful, returns Python `None`. -/
def output_value (r : SolidExecutionResult) (store : StepOutputHandle → PyVal)
    (output_name : String) : Except DagsterError PyVal :=
  if !(r.solid.output_names.contains output_name) then
    Except.error DagsterError.outputNotDefined
  else if success r then
    match findComputeOutputEvent output_name (compute_step_events r) with
    | some d => Except.ok (getValue store d)
    | none => Except.error DagsterError.didNotFindResult
  else
    Except.ok PyVal.vnone

/-- `SolidExecutionResult.output_values`: `None` unless the result is
successful and has at least one compute step event; otherwise the mapping
(Python builds a dict keyed by output name) from output names of
successful-output events to their reconstructed values, in event order. -/
def output_values (r : SolidExecutionResult) (store : StepOutputHandle → PyVal) :
    Option (List (String × PyVal)) :=
  if success r && !(compute_step_events r).isEmpty then
    some ((compute_step_events r).filterMap (fun e =>
      if e.is_successful_output then
        e.step_output_data.map (fun d => (d.output_name, getValue store d))
      else none))
  else none

/-- The defaultdict loop of `result_for_handle` lines 94-98: step events whose
solid handle is-or-descends-from the queried handle, bucketed by step kind;
each bucket keeps event-list order. -/
def eventsByKindFor (event_list : List DagsterEvent) (handle : String) :
    StepKind → List DagsterEvent :=
  fun kind => event_list.filter (fun e =>
    e.is_step_event && handleDescends e.solid_handle (parseHandle handle) && e.step_kind == kind)

/-- `PipelineExecutionResult.result_for_handle`: raises when the handle
addresses no solid of the pipeline, otherwise the solid's execution result
over the filtered, bucketed events. -/
def result_for_handle (p : Pipeline) (event_list : List DagsterEvent) (handle : String) :
    Except DagsterError SolidExecutionResult :=
  match getSolid p (parseHandle handle) with
  | none => Except.error DagsterError.solidNotFound
  | some sd => Except.ok { solid := sd, step_events_by_kind := eventsByKindFor event_list handle }

/-- `PipelineExecutionResult._construct_events_by_step_key`: the defaultdict
loop appending each event to the bucket of its own step key, represented as
the bucket function it denotes. -/
def constructEventsByStepKey (event_list : List DagsterEvent) : String → List DagsterEvent :=
  event_list.foldl
    (fun m e => fun k => if e.step_key == k then m k ++ [e] else m k)
    (fun _ => [])

/-- The execution metadata of a run request: optional caller-supplied run id,
run-level tags (as the lookup function the tag dict denotes), and the retry
lineage ids. -/
structure ExecutionMetadata where
  run_id : Option String
  tags : String → Option String
  root_run_id : Option String
  parent_run_id : Option String

/-- The pipeline selector of a run request: pipeline name and the optional
solid sub-selection. -/
structure PipelineSelector where
  pipeline_name : String
  solid_selection : Option (List String)

/-- `ExecutionParams`: selector, run configuration (opaque here), mode and
execution metadata. -/
structure ExecutionParams where
  selector : PipelineSelector
  run_config : String
  mode : String
  execution_metadata : ExecutionMetadata

/-- The external pipeline handle: its snapshots (opaque) and pipeline-level
tags. -/
structure ExternalPipeline where
  pipeline_snapshot : String
  parent_pipeline_snapshot : Option String
  tags : String → Option String

/-- The persisted `PipelineRun` record, with the fields
`instance.create_run` receives at `run_lifecycle.py` lines 24-42. -/
structure PipelineRun where
  run_id : String
  pipeline_name : String
  status : PipelineRunStatus
  run_config : String
  mode : String
  solids_to_execute : Option (List String)
  step_keys_to_execute : Option (List String)
  tags : String → Option String
  root_run_id : Option String
  parent_run_id : Option String
  pipeline_snapshot : String
  execution_plan_snapshot : String
  parent_pipeline_snapshot : Option String

/-- Look a run up by id in the run store. -/
def findRun (runs : List PipelineRun) (run_id : String) : Option PipelineRun :=
  runs.find? (fun r => r.run_id == run_id)

/-- Modelled from the spec: `merge_dicts` (imported from outside the excerpt)
merges run-level tags over pipeline-level tags, run tags taking precedence on
key collision. -/
def merge_dicts (onto from_tags : String → Option String) : String → Option String :=
  fun k =>
    match from_tags k with
    | some v => some v
    | none => onto k

/-- Modelled from the spec: inside `instance.create_run` (outside the
excerpt), the recorded root run id is the one provided; if absent but a
parent run id is present, it defaults to the parent run's own root run id. -/
def resolveRootRunId (runs : List PipelineRun) (root parent : Option String) : Option String :=
  match root with
  | some rootId => some rootId
  | none =>
    match parent with
    | some pid =>
      match findRun runs pid with
      | some parentRun => parentRun.root_run_id
      | none => none
    | none => none

/-- `run_lifecycle.py` lines 29-31: the caller-supplied run id when present
and truthy (Python's falsy empty string synthesizes a fresh id too),
otherwise a fresh `make_new_run_id()`. -/
def chosenRunId (md : ExecutionMetadata) (fresh : String) : String :=
  match md.run_id with
  | some s => if s == "" then fresh else s
  | none => fresh

/-- `run_lifecycle.py` lines 32-34: the solid selection as a set when present
and non-empty (Python's falsy empty selection yields `None`). -/
def chosenSolidsToExecute (sel : PipelineSelector) : Option (List String) :=
  match sel.solid_selection with
  | some l => if l.isEmpty then none else some l
  | none => none

/-- The external collaborators of `create_valid_pipeline_run`:
`ensure_valid_config`, `compute_step_keys_to_execute`,
`get_external_execution_plan_or_raise` (each may fail), and the fresh run id
`make_new_run_id` would synthesize. -/
structure Externals where
  ensure_valid_config : ExternalPipeline → String → String → Except DagsterError Unit
  compute_step_keys_to_execute :
    ExternalPipeline → ExecutionParams → Except DagsterError (Option (List String))
  get_external_execution_plan_or_raise :
    ExternalPipeline → String → String → Option (List String) → Except DagsterError String
  make_new_run_id : String

/-- The run record `instance.create_run` persists, from the keyword arguments
at `run_lifecycle.py` lines 24-42; the root run id defaulting and the
persistence itself are modelled from the spec (`instance.create_run` is
outside the excerpt). -/
def mkRunRecord (ext : Externals) (runs : List PipelineRun)
    (external_pipeline : ExternalPipeline) (execution_params : ExecutionParams)
    (step_keys_to_execute : Option (List String)) (plan_snapshot : String) : PipelineRun :=
  { run_id := chosenRunId execution_params.execution_metadata ext.make_new_run_id
    pipeline_name := execution_params.selector.pipeline_name
    status := PipelineRunStatus.notStarted
    run_config := execution_params.run_config
    mode := execution_params.mode
    solids_to_execute := chosenSolidsToExecute execution_params.selector
    step_keys_to_execute := step_keys_to_execute
    tags := merge_dicts external_pipeline.tags execution_params.execution_metadata.tags
    root_run_id := resolveRootRunId runs execution_params.execution_metadata.root_run_id
      execution_params.execution_metadata.parent_run_id
    parent_run_id := execution_params.execution_metadata.parent_run_id
    pipeline_snapshot := external_pipeline.pipeline_snapshot
    execution_plan_snapshot := plan_snapshot
    parent_pipeline_snapshot := external_pipeline.parent_pipeline_snapshot }

/-- `create_valid_pipeline_run`: validate config, resolve the step subset,
build the plan — each failure short-circuits, leaving the run store
untouched — then persist exactly one new run record. The result pairs the
run store after the call with the outcome. -/
def create_valid_pipeline_run (ext : Externals) (runs : List PipelineRun)
    (external_pipeline : ExternalPipeline) (execution_params : ExecutionParams) :
    List PipelineRun × Except DagsterError PipelineRun :=
  match ext.ensure_valid_config external_pipeline execution_params.mode
      execution_params.run_config with
  | Except.error e => (runs, Except.error e)
  | Except.ok _ =>
    match ext.compute_step_keys_to_execute external_pipeline execution_params with
    | Except.error e => (runs, Except.error e)
    | Except.ok step_keys_to_execute =>
      match ext.get_external_execution_plan_or_raise external_pipeline
          execution_params.mode execution_params.run_config step_keys_to_execute with
      | Except.error e => (runs, Except.error e)
      | Except.ok plan_snapshot =>
        let record := mkRunRecord ext runs external_pipeline execution_params
          step_keys_to_execute plan_snapshot
        (runs ++ [record], Except.ok record)

/-- The success loop returns true iff no STEP_FAILURE occurs and either the
incoming flag was already set or some STEP_SUCCESS occurs. -/
theorem successLoop_iff (l : List DagsterEvent) (b : Bool) :
    successLoop l b = true ↔
      ((b = true ∨ ∃ e ∈ l, e.event_type = DagsterEventType.stepSuccess) ∧
        ∀ e ∈ l, e.event_type ≠ DagsterEventType.stepFailure) := by
  induction l generalizing b with
  | nil => simp [successLoop]
  | cons e es ih =>
    by_cases hf : e.event_type = DagsterEventType.stepFailure
    · simp [successLoop, hf]
    · have hstep : successLoop (e :: es) b
          = successLoop es (b || (e.event_type == DagsterEventType.stepSuccess)) := by
        simp [successLoop, hf]
      rw [hstep, ih]
      simp only [List.mem_cons, Bool.or_eq_true, beq_iff_eq]
      constructor
      · rintro ⟨h1, h2⟩
        refine ⟨?_, ?_⟩
        · rcases h1 with (hb | hs) | ⟨a, ha, hsa⟩
          · exact Or.inl hb
          · exact Or.inr ⟨e, Or.inl rfl, hs⟩
          · exact Or.inr ⟨a, Or.inr ha, hsa⟩
        · intro a ha
          rcases ha with rfl | ha
          · exact hf
          · exact h2 a ha
      · rintro ⟨h1, h2⟩
        refine ⟨?_, fun a ha => h2 a (Or.inr ha)⟩
        rcases h1 with hb | ⟨a, ha, hsa⟩
        · exact Or.inl (Or.inl hb)
        · rcases ha with rfl | ha
          · exact Or.inl (Or.inr hsa)
          · exact Or.inr ⟨a, ha, hsa⟩

/-- The bucket loop of `_construct_events_by_step_key`, run from any starting
bucket map, appends exactly the events of the queried step key, in order. -/
theorem foldlBuckets (l : List DagsterEvent) (m : String → List DagsterEvent) (k : String) :
    (l.foldl (fun m2 e => fun k2 => if e.step_key == k2 then m2 k2 ++ [e] else m2 k2) m) k
      = m k ++ l.filter (fun e => e.step_key == k) := by
  induction l generalizing m with
  | nil => simp
  | cons e es ih =>
    simp only [List.foldl_cons, List.filter_cons]
    cases h : e.step_key == k with
    | false => rw [ih]; simp [h]
    | true => rw [ih]; simp [h]

/-- `_construct_events_by_step_key` groups without reordering: each bucket is
the order-preserving filter of the input list by step key. -/
theorem constructEventsByStepKey_eq_filter (l : List DagsterEvent) (k : String) :
    constructEventsByStepKey l k = l.filter (fun e => e.step_key == k) := by
  unfold constructEventsByStepKey
  rw [foldlBuckets]
  simp

/-- If filtering leaves exactly one element, that element is also the first
one the find loop returns. -/
theorem filter_singleton_find {α : Type} (p : α → Bool) (l : List α) (e : α)
    (h : l.filter p = [e]) : l.find? p = some e := by
  induction l with
  | nil => simp at h
  | cons a as ih =>
    rw [List.filter_cons] at h
    cases hp : p a with
    | true =>
      rw [hp] at h
      simp only [if_pos] at h
      have ha : a = e := (List.cons_eq_cons.mp h).1
      rw [List.find?_cons_of_pos _ hp, ha]
    | false =>
      rw [hp] at h
      simp only [Bool.false_eq_true, if_false] at h
      rw [List.find?_cons_of_neg _ (by simp [hp])]
      exact ih h

/-- An ok `result_for_handle` carries exactly the handle-filtered,
kind-bucketed events of the input list. -/
theorem result_for_handle_ok_events (p : Pipeline) (event_list : List DagsterEvent)
    (handle : String) (r : SolidExecutionResult)
    (hok : result_for_handle p event_list handle = Except.ok r) :
    r.step_events_by_kind = eventsByKindFor event_list handle := by
  unfold result_for_handle at hok
  cases hg : getSolid p (parseHandle handle) with
  | none => rw [hg] at hok; exact absurd hok (by simp)
  | some sd =>
    rw [hg] at hok
    injection hok with h1
    rw [← h1]

/-- An error from `create_valid_pipeline_run` leaves the run store exactly as
it was: every failing collaborator short-circuits before the durable write. -/
theorem create_run_error_state (ext : Externals) (runs : List PipelineRun)
    (external_pipeline : ExternalPipeline) (execution_params : ExecutionParams)
    (e : DagsterError)
    (he : (create_valid_pipeline_run ext runs external_pipeline execution_params).2
      = Except.error e) :
    (create_valid_pipeline_run ext runs external_pipeline execution_params).1 = runs := by
  unfold create_valid_pipeline_run at he ⊢
  cases h1 : ext.ensure_valid_config external_pipeline execution_params.mode
      execution_params.run_config with
  | error e1 => rfl
  | ok u =>
    simp only [h1] at he
    cases h2 : ext.compute_step_keys_to_execute external_pipeline execution_params with
    | error e2 => simp [h2]
    | ok sk =>
      simp only [h2] at he
      cases h3 : ext.get_external_execution_plan_or_raise external_pipeline
          execution_params.mode execution_params.run_config sk with
      | error e3 => simp [h3]
      | ok ps => simp [h3] at he

/-- An ok `create_valid_pipeline_run` means all three collaborators succeeded,
the returned record is the one `mkRunRecord` builds from their outputs, and
the run store gained exactly that record. -/
theorem create_run_ok_record (ext : Externals) (runs : List PipelineRun)
    (external_pipeline : ExternalPipeline) (execution_params : ExecutionParams)
    (r : PipelineRun)
    (hok : (create_valid_pipeline_run ext runs external_pipeline execution_params).2
      = Except.ok r) :
    ext.ensure_valid_config external_pipeline execution_params.mode
        execution_params.run_config = Except.ok () ∧
      ∃ sk, ext.compute_step_keys_to_execute external_pipeline execution_params
          = Except.ok sk ∧
        ∃ ps, ext.get_external_execution_plan_or_raise external_pipeline
            execution_params.mode execution_params.run_config sk = Except.ok ps ∧
          r = mkRunRecord ext runs external_pipeline execution_params sk ps ∧
          (create_valid_pipeline_run ext runs external_pipeline execution_params).1
            = runs ++ [r] := by
  unfold create_valid_pipeline_run at hok ⊢
  cases h1 : ext.ensure_valid_config external_pipeline execution_params.mode
      execution_params.run_config with
  | error e1 => simp [h1] at hok
  | ok u =>
    simp only [h1] at hok
    cases h2 : ext.compute_step_keys_to_execute external_pipeline execution_params with
    | error e2 => simp [h2] at hok
    | ok sk =>
      simp only [h2] at hok
      cases h3 : ext.get_external_execution_plan_or_raise external_pipeline
          execution_params.mode execution_params.run_config sk with
      | error e3 => simp [h3] at hok
      | ok ps =>
        simp only [h3] at hok
        have hr : mkRunRecord ext runs external_pipeline execution_params sk ps = r := by
          simpa using hok
        exact ⟨rfl, sk, rfl, ps, h3, hr.symm, by simp [h2, h3, hr]⟩

/-- The composite example: a composite solid `outer` containing the leaf
`outer.inner`. -/
def exInnerSolid : Solid := { name := "inner", output_names := ["result"] }

/-- The composite solid addressed by the handle `outer`. -/
def exOuterSolid : Solid := { name := "outer", output_names := ["result"] }

/-- The pipeline definition holding the composite example's two handles. -/
def exPipe : Pipeline :=
  { solids := [(["outer"], exOuterSolid), (["outer", "inner"], exInnerSolid)] }

/-- A compute-phase STEP_FAILURE event on the nested leaf `outer.inner`. -/
def exFailEvent : DagsterEvent :=
  { event_type := DagsterEventType.stepFailure
    step_key := "outer.inner.compute"
    solid_handle := ["outer", "inner"]
    step_kind := StepKind.compute
    step_output_data := none
    step_failure_data := some { error := "boom" } }

/-- The event list of the composite example: just the nested failure. -/
def exEvents : List DagsterEvent := [exFailEvent]

/-- The node result view for the handle `outer` of the composite example. -/
def exOuterR : SolidExecutionResult :=
  { solid := exOuterSolid, step_events_by_kind := eventsByKindFor exEvents "outer" }

/-- The node result view for the handle `outer.inner` of the composite
example. -/
def exInnerR : SolidExecutionResult :=
  { solid := exInnerSolid, step_events_by_kind := eventsByKindFor exEvents "outer.inner" }

/-- C1: for every node handle and event list, an ok `result_for_handle` is
successful iff at least one compute-phase STEP_SUCCESS and no compute-phase
STEP_FAILURE occurs among the events whose solid handle is-or-descends-from
the queried handle. -/
theorem node_success_iff_c1 (p : Pipeline) (event_list : List DagsterEvent)
    (handle : String) (r : SolidExecutionResult)
    (hok : result_for_handle p event_list handle = Except.ok r) :
    success r = true ↔
      ((∃ e ∈ eventsByKindFor event_list handle StepKind.compute,
          e.event_type = DagsterEventType.stepSuccess) ∧
        ∀ e ∈ eventsByKindFor event_list handle StepKind.compute,
          e.event_type ≠ DagsterEventType.stepFailure) := by
  have hev := result_for_handle_ok_events p event_list handle r hok
  unfold success compute_step_events
  rw [hev, successLoop_iff]
  simp

/-- Witness for C1, at the composite example: a compute STEP_FAILURE on
`outer.inner` makes both the `outer` and the `outer.inner` result views
unsuccessful. -/
theorem node_success_iff_c1_witness :
    success exOuterR = false ∧ success exInnerR = false := by
  constructor
  · cases hb : success exOuterR with
    | false => rfl
    | true =>
      have h := (node_success_iff_c1 exPipe exEvents "outer" exOuterR rfl).mp hb
      exact absurd (h.2 exFailEvent (by decide)) (by decide)
  · cases hb : success exInnerR with
    | false => rfl
    | true =>
      have h := (node_success_iff_c1 exPipe exEvents "outer.inner" exInnerR rfl).mp hb
      exact absurd (h.2 exFailEvent (by decide)) (by decide)

/-- C4: for every node handle and event list, an ok `result_for_handle` is
skipped iff every one of its compute-phase step events is STEP_SKIPPED. -/
theorem node_skipped_iff_c4 (p : Pipeline) (event_list : List DagsterEvent)
    (handle : String) (r : SolidExecutionResult)
    (hok : result_for_handle p event_list handle = Except.ok r) :
    skipped r = true ↔
      ∀ e ∈ eventsByKindFor event_list handle StepKind.compute,
        e.event_type = DagsterEventType.stepSkipped := by
  have hev := result_for_handle_ok_events p event_list handle r hok
  unfold skipped compute_step_events
  rw [hev]
  simp [List.all_eq_true]

/-- Witness for C4: with only a failure event filed under `outer.inner`, the
view is not skipped (its one compute event is STEP_FAILURE); with no events
filed under it at all, a view is vacuously skipped. -/
theorem node_skipped_iff_c4_witness :
    skipped exInnerR = false ∧ skipped exOuterR = false := by
  constructor
  · cases hb : skipped exInnerR with
    | false => rfl
    | true =>
      have h := (node_skipped_iff_c4 exPipe exEvents "outer.inner" exInnerR rfl).mp hb
      exact absurd (h exFailEvent (by decide)) (by decide)
  · cases hb : skipped exOuterR with
    | false => rfl
    | true =>
      have h := (node_skipped_iff_c4 exPipe exEvents "outer" exOuterR rfl).mp hb
      exact absurd (h exFailEvent (by decide)) (by decide)

/-- A node result view whose compute-phase event list is empty: the
"not executed" state. -/
def exEmptyR : SolidExecutionResult :=
  { solid := exOuterSolid, step_events_by_kind := fun _ => [] }

/-- A store that is never consulted in the examples that use it. -/
def exStore : StepOutputHandle → PyVal := fun _ => PyVal.vnone

/-- C10: a node result view with no compute-phase events is not successful,
is (vacuously) skipped, and its `output_values` is the no-value sentinel. -/
theorem not_executed_state_c10 (r : SolidExecutionResult) (store : StepOutputHandle → PyVal)
    (h : compute_step_events r = []) :
    success r = false ∧ skipped r = true ∧ output_values r store = none := by
  have hs : success r = false := by
    unfold success
    rw [h]
    rfl
  refine ⟨hs, ?_, ?_⟩
  · unfold skipped
    rw [h]
    rfl
  · simp [output_values, hs]

/-- Witness for C10, at a concrete empty node result view. -/
theorem not_executed_state_c10_witness :
    success exEmptyR = false ∧ skipped exEmptyR = true ∧
      output_values exEmptyR exStore = none :=
  not_executed_state_c10 exEmptyR exStore rfl

/-- A compute STEP_SKIPPED event on the standalone solid `solo`. -/
def c2SkipEvent : DagsterEvent :=
  { event_type := DagsterEventType.stepSkipped
    step_key := "solo.compute"
    solid_handle := ["solo"]
    step_kind := StepKind.compute
    step_output_data := none
    step_failure_data := none }

/-- A node result view that is not successful yet has zero compute
STEP_FAILURE events: its only compute event is STEP_SKIPPED. -/
def c2ZeroR : SolidExecutionResult :=
  { solid := { name := "solo", output_names := ["result"] }
    step_events_by_kind := fun k =>
      match k with
      | StepKind.compute => [c2SkipEvent]
      | StepKind.other => [] }

/-- A compute STEP_FAILURE event on the standalone solid `solo`. -/
def c2FailEvent : DagsterEvent :=
  { event_type := DagsterEventType.stepFailure
    step_key := "solo.compute"
    solid_handle := ["solo"]
    step_kind := StepKind.compute
    step_output_data := none
    step_failure_data := some { error := "boom" } }

/-- A node result view with exactly one compute STEP_FAILURE event. -/
def c2OneR : SolidExecutionResult :=
  { solid := { name := "solo", output_names := ["result"] }
    step_events_by_kind := fun k =>
      match k with
      | StepKind.compute => [c2FailEvent]
      | StepKind.other => [] }

/-- Counterexample to C2: a node result view that is not successful and has
zero compute STEP_FAILURE events, on which `failure_data` does not fail with
an InvariantError — it returns the ordinary value `None` — while the
behaviour the claim ascribes to it (`failure_data_claimed`) demands the
error. -/
theorem failure_data_counterexample_c2 :
    success c2ZeroR = false ∧
      computeStepsOfType c2ZeroR DagsterEventType.stepFailure = [] ∧
      failure_data c2ZeroR = none ∧
      failure_data_claimed c2ZeroR = Except.error DagsterError.checkInvariantFailed :=
  ⟨rfl, rfl, rfl, rfl⟩

/-- C2 as amended: the zero-or-more-than-one InvariantError consistency check
lives in `compute_step_failure_event`, not in `failure_data`; when exactly
one compute STEP_FAILURE exists, `compute_step_failure_event` returns that
event and `failure_data` returns its diagnostic payload, and `failure_data`
itself never raises. -/
theorem failure_event_invariant_c2 (r : SolidExecutionResult)
    (h : success r = false) :
    ((computeStepsOfType r DagsterEventType.stepFailure).length ≠ 1 →
        compute_step_failure_event r
          = Except.error DagsterError.checkInvariantFailed) ∧
      ∀ e, computeStepsOfType r DagsterEventType.stepFailure = [e] →
        compute_step_failure_event r = Except.ok e ∧
          failure_data r = e.step_failure_data := by
  constructor
  · intro hlen
    unfold compute_step_failure_event
    rw [h]
    cases hfl : computeStepsOfType r DagsterEventType.stepFailure with
    | nil => rfl
    | cons a t =>
      cases t with
      | nil => exact absurd (by rw [hfl]; rfl) hlen
      | cons b t2 => rfl
  · intro e he
    refine ⟨?_, ?_⟩
    · unfold compute_step_failure_event
      rw [h, he]
      rfl
    · unfold failure_data
      rw [filter_singleton_find _ (compute_step_events r) e he]

/-- Witness for the amended C2, at concrete views: with exactly one compute
STEP_FAILURE the event and its payload come back; with zero failures on a
non-successful view the invariant check fails. -/
theorem failure_event_invariant_c2_witness :
    compute_step_failure_event c2OneR = Except.ok c2FailEvent ∧
      failure_data c2OneR = c2FailEvent.step_failure_data ∧
      compute_step_failure_event c2ZeroR
        = Except.error DagsterError.checkInvariantFailed := by
  have h1 := (failure_event_invariant_c2 c2OneR rfl).2 c2FailEvent rfl
  have h2 := (failure_event_invariant_c2 c2ZeroR rfl).1 (by decide)
  exact ⟨h1.1, h1.2, h2⟩

/-- C5: `output_value` fails with the unknown-output error exactly when the
solid's definition has no output of that name; when the name is defined but
the node did not succeed it returns Python `None`, not an error. -/
theorem output_value_unknown_c5 (r : SolidExecutionResult)
    (store : StepOutputHandle → PyVal) (output_name : String) :
    (output_value r store output_name = Except.error DagsterError.outputNotDefined ↔
        r.solid.output_names.contains output_name = false) ∧
      (r.solid.output_names.contains output_name = true → success r = false →
        output_value r store output_name = Except.ok PyVal.vnone) := by
  constructor
  · constructor
    · intro he
      cases hc : r.solid.output_names.contains output_name with
      | false => rfl
      | true =>
        exfalso
        unfold output_value at he
        rw [hc] at he
        simp only [Bool.not_true, Bool.false_eq_true, if_false] at he
        cases hs : success r with
        | false => rw [hs] at he; simp at he
        | true =>
          rw [hs] at he
          simp only [if_pos] at he
          cases hf : findComputeOutputEvent output_name (compute_step_events r) with
          | some d => rw [hf] at he; simp at he
          | none => rw [hf] at he; simp at he
    · intro hc
      unfold output_value
      rw [hc]
      rfl
  · intro hc hs
    unfold output_value
    rw [hc, hs]
    rfl

/-- Witness for C5: on the failed `outer` view, an undefined output name gets
the unknown-output error, while the defined name `result` yields `None`. -/
theorem output_value_unknown_c5_witness :
    output_value exOuterR exStore "nope" = Except.error DagsterError.outputNotDefined ∧
      output_value exOuterR exStore "result" = Except.ok PyVal.vnone := by
  constructor
  · exact (output_value_unknown_c5 exOuterR exStore "nope").1.mpr (by decide)
  · exact (output_value_unknown_c5 exOuterR exStore "result").2 (by decide) (by decide)

/-- The store handle of the C9 example's lone output. -/
def c9Handle : StepOutputHandle := { step_key := "node.compute", output_name := "result" }

/-- The output payload of the C9 example's STEP_OUTPUT event. -/
def c9Data : StepOutputData := { output_name := "result", step_output_handle := c9Handle }

/-- The STEP_OUTPUT event of the C9 example. -/
def c9OutEvent : DagsterEvent :=
  { event_type := DagsterEventType.stepOutput
    step_key := "node.compute"
    solid_handle := ["node"]
    step_kind := StepKind.compute
    step_output_data := some c9Data
    step_failure_data := none }

/-- The STEP_SUCCESS event of the C9 example. -/
def c9SuccEvent : DagsterEvent :=
  { event_type := DagsterEventType.stepSuccess
    step_key := "node.compute"
    solid_handle := ["node"]
    step_kind := StepKind.compute
    step_output_data := none
    step_failure_data := none }

/-- The successful node result view of the C9 example. -/
def c9R : SolidExecutionResult :=
  { solid := { name := "node", output_names := ["result"] }
    step_events_by_kind := fun k =>
      match k with
      | StepKind.compute => [c9OutEvent, c9SuccEvent]
      | StepKind.other => [] }

/-- A store holding the bare value 42. -/
def c9RawStore : StepOutputHandle → PyVal := fun _ => PyVal.vint 42

/-- A store wrapping the value 42 in a pointer-to-object wrapper. -/
def c9WrapStore : StepOutputHandle → PyVal :=
  fun _ => PyVal.objectStoreOperation (PyVal.vint 42)

/-- A store returning a doubly wrapped value, to observe that unwrapping is
not recursive. -/
def c9WrapWrapStore : StepOutputHandle → PyVal :=
  fun _ => PyVal.objectStoreOperation (PyVal.objectStoreOperation (PyVal.vint 7))

/-- C9: on a successful node with a defined output name whose STEP_OUTPUT
event the loop locates, `output_value` reads the store at the event's handle;
a stored 42 comes back as 42 whether raw or wrapped once, and a wrapper is
dereferenced exactly once — whatever payload it carries, wrapped or not, is
returned as is. -/
theorem output_value_unwrap_c9 (r : SolidExecutionResult)
    (store : StepOutputHandle → PyVal) (output_name : String) (d : StepOutputData)
    (hout : r.solid.output_names.contains output_name = true)
    (hs : success r = true)
    (hfind : findComputeOutputEvent output_name (compute_step_events r) = some d) :
    ((store d.step_output_handle = PyVal.vint 42 ∨
        store d.step_output_handle = PyVal.objectStoreOperation (PyVal.vint 42)) →
      output_value r store output_name = Except.ok (PyVal.vint 42)) ∧
      ∀ x, store d.step_output_handle = PyVal.objectStoreOperation x →
        getValue store d = x := by
  have hov : output_value r store output_name = Except.ok (getValue store d) := by
    unfold output_value
    rw [hout, hs, hfind]
    rfl
  constructor
  · rintro (h42 | h42) <;> rw [hov] <;> unfold getValue <;> rw [h42]
  · intro x hx
    unfold getValue
    rw [hx]

/-- Witness for C9, at the concrete example: the stored 42 round-trips raw
and wrapped, and the doubly wrapped store value loses exactly one wrapper. -/
theorem output_value_unwrap_c9_witness :
    output_value c9R c9RawStore "result" = Except.ok (PyVal.vint 42) ∧
      output_value c9R c9WrapStore "result" = Except.ok (PyVal.vint 42) ∧
      getValue c9WrapWrapStore c9Data
        = PyVal.objectStoreOperation (PyVal.vint 7) := by
  refine ⟨?_, ?_, ?_⟩
  · exact (output_value_unwrap_c9 c9R c9RawStore "result" c9Data rfl rfl rfl).1
      (Or.inl rfl)
  · exact (output_value_unwrap_c9 c9R c9WrapStore "result" c9Data rfl rfl rfl).1
      (Or.inr rfl)
  · exact (output_value_unwrap_c9 c9R c9WrapWrapStore "result" c9Data rfl rfl rfl).2
      (PyVal.objectStoreOperation (PyVal.vint 7)) rfl

/-- C7: aggregation is deterministic — the same event list always yields the
same result view — and never reorders events: the per-step-key buckets are
the order-preserving filters of the input list, and the per-node bucketed
lists and per-type compute sublists are order-preserving sublists of their
inputs. -/
theorem aggregation_order_c7 :
    (∀ (p : Pipeline) (event_list : List DagsterEvent) (handle : String),
        result_for_handle p event_list handle
          = result_for_handle p event_list handle) ∧
      (∀ (event_list : List DagsterEvent) (k : String),
        constructEventsByStepKey event_list k
          = event_list.filter (fun e => e.step_key == k)) ∧
      (∀ (event_list : List DagsterEvent) (k : String),
        (constructEventsByStepKey event_list k).Sublist event_list) ∧
      (∀ (r : SolidExecutionResult) (t : DagsterEventType),
        (computeStepsOfType r t).Sublist (compute_step_events r)) ∧
      ∀ (event_list : List DagsterEvent) (handle : String) (k : StepKind),
        (eventsByKindFor event_list handle k).Sublist event_list := by
  refine ⟨fun _ _ _ => rfl, constructEventsByStepKey_eq_filter, ?_, ?_, ?_⟩
  · intro event_list k
    rw [constructEventsByStepKey_eq_filter]
    exact List.filter_sublist event_list
  · intro r t
    exact List.filter_sublist (compute_step_events r)
  · intro event_list handle k
    exact List.filter_sublist event_list

/-- C3: when a run request carries no `root_run_id` but names a parent run
present in the run store, the record `create_valid_pipeline_run` persists has
the parent run's own `root_run_id` as its root. -/
theorem root_run_id_defaults_c3 (ext : Externals) (runs : List PipelineRun)
    (external_pipeline : ExternalPipeline) (execution_params : ExecutionParams)
    (r parentRun : PipelineRun) (pid : String)
    (hroot : execution_params.execution_metadata.root_run_id = none)
    (hparent : execution_params.execution_metadata.parent_run_id = some pid)
    (hfound : findRun runs pid = some parentRun)
    (hok : (create_valid_pipeline_run ext runs external_pipeline execution_params).2
      = Except.ok r) :
    r.root_run_id = parentRun.root_run_id := by
  obtain ⟨-, sk, -, ps, -, hr, -⟩ :=
    create_run_ok_record ext runs external_pipeline execution_params r hok
  rw [hr]
  simp [mkRunRecord, resolveRootRunId, hroot, hparent, hfound]

/-- A parent run whose lineage origin is `R0`. -/
def c3ParentRun : PipelineRun :=
  { run_id := "R1"
    pipeline_name := "pipe"
    status := PipelineRunStatus.failure
    run_config := "cfg"
    mode := "default"
    solids_to_execute := none
    step_keys_to_execute := none
    tags := fun _ => none
    root_run_id := some "R0"
    parent_run_id := some "R0"
    pipeline_snapshot := "snap"
    execution_plan_snapshot := "plan"
    parent_pipeline_snapshot := none }

/-- Collaborators that all succeed, resolving a two-step subset and building
the plan snapshot `plan`. -/
def goodExternals : Externals :=
  { ensure_valid_config := fun _ _ _ => Except.ok ()
    compute_step_keys_to_execute := fun _ _ => Except.ok (some ["b.compute", "c.compute"])
    get_external_execution_plan_or_raise := fun _ _ _ _ => Except.ok "plan"
    make_new_run_id := "R2" }

/-- The external pipeline of the lineage example, with no pipeline tags. -/
def c3Pipe : ExternalPipeline :=
  { pipeline_snapshot := "snap", parent_pipeline_snapshot := none, tags := fun _ => none }

/-- A retry request naming parent `R1` and no explicit root. -/
def c3Params : ExecutionParams :=
  { selector := { pipeline_name := "pipe", solid_selection := none }
    run_config := "cfg"
    mode := "default"
    execution_metadata :=
      { run_id := none
        tags := fun _ => none
        root_run_id := none
        parent_run_id := some "R1" } }

/-- The record the lineage example persists. -/
def c3NewRun : PipelineRun :=
  mkRunRecord goodExternals [c3ParentRun] c3Pipe c3Params
    (some ["b.compute", "c.compute"]) "plan"

/-- Witness for C3: retrying `R1` (whose root is `R0`) with no explicit root
yields a run whose root is `R0`. -/
theorem root_run_id_defaults_c3_witness : c3NewRun.root_run_id = some "R0" := by
  have h := root_run_id_defaults_c3 goodExternals [c3ParentRun] c3Pipe c3Params
    c3NewRun c3ParentRun "R1" rfl rfl rfl rfl
  rw [h]
  rfl

/-- C6: the tags persisted on the created run record are the run-level tags
merged over the pipeline-level tags — a key present in the run tags maps to
the run tag's value, and a key absent from the run tags maps to the pipeline
tag's value. -/
theorem tags_merge_c6 (ext : Externals) (runs : List PipelineRun)
    (external_pipeline : ExternalPipeline) (execution_params : ExecutionParams)
    (r : PipelineRun) (k : String)
    (hok : (create_valid_pipeline_run ext runs external_pipeline execution_params).2
      = Except.ok r) :
    (∀ v, execution_params.execution_metadata.tags k = some v → r.tags k = some v) ∧
      (execution_params.execution_metadata.tags k = none →
        r.tags k = external_pipeline.tags k) := by
  obtain ⟨-, sk, -, ps, -, hr, -⟩ :=
    create_run_ok_record ext runs external_pipeline execution_params r hok
  constructor
  · intro v hv
    rw [hr]
    simp [mkRunRecord, merge_dicts, hv]
  · intro hv
    rw [hr]
    simp [mkRunRecord, merge_dicts, hv]

/-- The external pipeline of the tag-merge example, with pipeline tags
`team=x` and `base=b`. -/
def c6Pipe : ExternalPipeline :=
  { pipeline_snapshot := "snap"
    parent_pipeline_snapshot := none
    tags := fun k =>
      if k == "team" then some "x" else if k == "base" then some "b" else none }

/-- The run request of the tag-merge example, with run tags `team=y` and
`env=prod`. -/
def c6Params : ExecutionParams :=
  { selector := { pipeline_name := "pipe", solid_selection := none }
    run_config := "cfg"
    mode := "default"
    execution_metadata :=
      { run_id := none
        tags := fun k =>
          if k == "team" then some "y" else if k == "env" then some "prod" else none
        root_run_id := none
        parent_run_id := none } }

/-- The record the tag-merge example persists. -/
def c6Run : PipelineRun :=
  mkRunRecord goodExternals [] c6Pipe c6Params (some ["b.compute", "c.compute"]) "plan"

/-- Witness for C6: pipeline tags team=x, base=b with run tags team=y,
env=prod persist as team=y, env=prod, base=b. -/
theorem tags_merge_c6_witness :
    c6Run.tags "team" = some "y" ∧ c6Run.tags "env" = some "prod" ∧
      c6Run.tags "base" = some "b" := by
  have ht := (tags_merge_c6 goodExternals [] c6Pipe c6Params c6Run "team" rfl).1 "y" rfl
  have he := (tags_merge_c6 goodExternals [] c6Pipe c6Params c6Run "env" rfl).1 "prod" rfl
  have hb := (tags_merge_c6 goodExternals [] c6Pipe c6Params c6Run "base" rfl).2 rfl
  exact ⟨ht, he, hb.trans rfl⟩

/-- C8: `create_valid_pipeline_run` is atomic — an error from any of config
validation, step-subset resolution, or plan building leaves the run store
unchanged, while on success all three collaborators have succeeded and
exactly one new record, with status NOT_STARTED, is appended. -/
theorem create_run_atomic_c8 (ext : Externals) (runs : List PipelineRun)
    (external_pipeline : ExternalPipeline) (execution_params : ExecutionParams) :
    (∀ e, (create_valid_pipeline_run ext runs external_pipeline execution_params).2
        = Except.error e →
      (create_valid_pipeline_run ext runs external_pipeline execution_params).1
        = runs) ∧
      ∀ r, (create_valid_pipeline_run ext runs external_pipeline execution_params).2
          = Except.ok r →
        (create_valid_pipeline_run ext runs external_pipeline execution_params).1
            = runs ++ [r] ∧
          r.status = PipelineRunStatus.notStarted ∧
          ext.ensure_valid_config external_pipeline execution_params.mode
              execution_params.run_config = Except.ok () ∧
          ∃ sk, ext.compute_step_keys_to_execute external_pipeline execution_params
              = Except.ok sk ∧
            ∃ ps, ext.get_external_execution_plan_or_raise external_pipeline
                execution_params.mode execution_params.run_config sk
              = Except.ok ps := by
  constructor
  · intro e he
    exact create_run_error_state ext runs external_pipeline execution_params e he
  · intro r hok
    obtain ⟨hcfg, sk, hsk, ps, hps, hr, hstore⟩ :=
      create_run_ok_record ext runs external_pipeline execution_params r hok
    refine ⟨hstore, ?_, hcfg, sk, hsk, ps, hps⟩
    rw [hr]
    rfl

/-- Collaborators whose config validation fails. -/
def badExternals : Externals :=
  { ensure_valid_config := fun _ _ _ => Except.error DagsterError.invalidConfig
    compute_step_keys_to_execute := fun _ _ => Except.ok (some ["b.compute", "c.compute"])
    get_external_execution_plan_or_raise := fun _ _ _ _ => Except.ok "plan"
    make_new_run_id := "R2" }

/-- The record the atomicity example persists on its success path. -/
def c8GoodRun : PipelineRun :=
  mkRunRecord goodExternals [] c3Pipe c6Params (some ["b.compute", "c.compute"]) "plan"

/-- Witness for C8: with failing config validation the run store stays as it
was; with all collaborators succeeding, exactly the new NOT_STARTED record is
appended. -/
theorem create_run_atomic_c8_witness :
    (create_valid_pipeline_run badExternals [c3ParentRun] c3Pipe c6Params).1
        = [c3ParentRun] ∧
      (create_valid_pipeline_run goodExternals [] c3Pipe c6Params).1 = [c8GoodRun] ∧
      c8GoodRun.status = PipelineRunStatus.notStarted := by
  have h1 := (create_run_atomic_c8 badExternals [c3ParentRun] c3Pipe c6Params).1
    DagsterError.invalidConfig rfl
  have h2 := (create_run_atomic_c8 goodExternals [] c3Pipe c6Params).2 c8GoodRun rfl
  exact ⟨h1, h2.1, h2.2.1⟩
